import Mathlib

/-!
Shallow embedding of the `openzt-instance-manager` orchestration core
(Rust sources under `src/openzt-instance-manager/src/`), together with
proofs and refutations of the specification claims about it.

Conventions of the embedding:
* Rust `u16` ports are modelled as `Nat` (the code performs no arithmetic
  that can overflow: ports are only iterated, compared and stored).
* Rust `HashSet<u16>` is modelled as a duplicate-free `List Nat`:
  `hsInsert` inserts only when absent (exactly the observable behaviour of
  `HashSet::insert`) and `hsRemove` removes every occurrence (the
  observable behaviour of `HashSet::remove`).
* Rust `&str` / `String` are modelled as `List Char` (`Str`), so that all
  string operations reduce in the kernel.
* Methods taking `&mut self` are modelled as functions returning the new
  state; a method that can fail returns the result *and* the state reached
  at the failure point, mirroring the effect of early `?` returns on a
  mutable receiver.
* External effects (the Docker daemon, the filesystem, UUID generation)
  are inputs of the model: each call site's outcome is an explicit
  argument (an oracle), and the filesystem's set of temp payload files is
  threaded as part of the state.
-/

/-- Strings from the Rust source, as character lists. -/
abbrev Str := List Char

/-- Coerce a Lean string literal to the `Str` model. -/
def str (s : String) : Str := s.data

/-- Rust `HashSet::insert`: add an element if it is not already present. -/
def hsInsert (l : List Nat) (p : Nat) : List Nat :=
  if p ∈ l then l else p :: l

/-- Rust `HashSet::remove`: drop the element from the set. -/
def hsRemove (l : List Nat) (p : Nat) : List Nat :=
  l.filter (fun x => x ≠ p)

/-! ## Port pool (`src/openzt-instance-manager/src/ports.rs`)

`Range<u16>` fields `start..end` are split into `_start`/`_end` numeric
fields; `range.contains(&p)` is `start ≤ p ∧ p < end`; iterating a range
visits `start, start+1, …, end-1` in order, modelled by
`List.range' start (end - start)`. -/

structure PortPool where
  rdp_start : Nat
  rdp_end : Nat
  console_start : Nat
  console_end : Nat
  xpra_start : Nat
  xpra_end : Nat
  allocated_rdp : List Nat
  allocated_console : List Nat
  allocated_xpra : List Nat
deriving DecidableEq, Repr

namespace PortPool

/-- Rust `PortPool::new`. -/
def new (rdpS rdpE conS conE xpS xpE : Nat) : PortPool :=
  { rdp_start := rdpS, rdp_end := rdpE
    console_start := conS, console_end := conE
    xpra_start := xpS, xpra_end := xpE
    allocated_rdp := [], allocated_console := [], allocated_xpra := [] }

/-- The walk of `for port in range` looking for the first free port. -/
def firstFree (start stop : Nat) (allocated : List Nat) : Option Nat :=
  (List.range' start (stop - start)).find? (fun p => p ∉ allocated)

/-- Rust `PortPool::allocate_rdp`. -/
def allocate_rdp (pool : PortPool) : Option Nat × PortPool :=
  match firstFree pool.rdp_start pool.rdp_end pool.allocated_rdp with
  | some p => (some p, { pool with allocated_rdp := hsInsert pool.allocated_rdp p })
  | none => (none, pool)

/-- Rust `PortPool::allocate_console`. -/
def allocate_console (pool : PortPool) : Option Nat × PortPool :=
  match firstFree pool.console_start pool.console_end pool.allocated_console with
  | some p => (some p, { pool with allocated_console := hsInsert pool.allocated_console p })
  | none => (none, pool)

/-- Rust `PortPool::allocate_xpra`. -/
def allocate_xpra (pool : PortPool) : Option Nat × PortPool :=
  match firstFree pool.xpra_start pool.xpra_end pool.allocated_xpra with
  | some p => (some p, { pool with allocated_xpra := hsInsert pool.allocated_xpra p })
  | none => (none, pool)

/-- Rust `PortPool::allocate_pair`: `?` on a `&mut self` receiver keeps the
mutations already performed, so a failing second step returns the state
reached so far. -/
def allocate_pair (pool : PortPool) : Option (Nat × Nat) × PortPool :=
  match allocate_rdp pool with
  | (none, p1) => (none, p1)
  | (some r, p1) =>
    match allocate_console p1 with
    | (none, p2) => (none, p2)
    | (some c, p2) => (some (r, c), p2)

/-- Rust `PortPool::allocate_triplet`. -/
def allocate_triplet (pool : PortPool) : Option (Nat × Nat × Nat) × PortPool :=
  match allocate_rdp pool with
  | (none, p1) => (none, p1)
  | (some r, p1) =>
    match allocate_console p1 with
    | (none, p2) => (none, p2)
    | (some c, p2) =>
      match allocate_xpra p2 with
      | (none, p3) => (none, p3)
      | (some x, p3) => (some (r, c, x), p3)

/-- Rust `PortPool::release_rdp`. -/
def release_rdp (pool : PortPool) (port : Nat) : PortPool :=
  { pool with allocated_rdp := hsRemove pool.allocated_rdp port }

/-- Rust `PortPool::release_console`. -/
def release_console (pool : PortPool) (port : Nat) : PortPool :=
  { pool with allocated_console := hsRemove pool.allocated_console port }

/-- Rust `PortPool::release_pair`. -/
def release_pair (pool : PortPool) (rdp conl : Nat) : PortPool :=
  (pool.release_rdp rdp).release_console conl

/-- Rust `PortPool::release_xpra`. -/
def release_xpra (pool : PortPool) (port : Nat) : PortPool :=
  { pool with allocated_xpra := hsRemove pool.allocated_xpra port }

/-- Rust `PortPool::release_triplet`. -/
def release_triplet (pool : PortPool) (rdp conl xp : Nat) : PortPool :=
  ((pool.release_rdp rdp).release_console conl).release_xpra xp

/-- Rust `PortPool::add_existing_rdp`. -/
def add_existing_rdp (pool : PortPool) (port : Nat) : Except Str Unit × PortPool :=
  if ¬ (pool.rdp_start ≤ port ∧ port < pool.rdp_end) then
    (.error (str "Port outside RDP range"), pool)
  else
    (.ok (), { pool with allocated_rdp := hsInsert pool.allocated_rdp port })

/-- Rust `PortPool::add_existing_console`. -/
def add_existing_console (pool : PortPool) (port : Nat) : Except Str Unit × PortPool :=
  if ¬ (pool.console_start ≤ port ∧ port < pool.console_end) then
    (.error (str "Port outside console range"), pool)
  else
    (.ok (), { pool with allocated_console := hsInsert pool.allocated_console port })

/-- Rust `PortPool::add_existing_xpra`. -/
def add_existing_xpra (pool : PortPool) (port : Nat) : Except Str Unit × PortPool :=
  if ¬ (pool.xpra_start ≤ port ∧ port < pool.xpra_end) then
    (.error (str "Port outside XPRA range"), pool)
  else
    (.ok (), { pool with allocated_xpra := hsInsert pool.allocated_xpra port })

/-- Rust `PortPool::add_existing_triplet`: `?` keeps earlier mutations on a
later failure. -/
def add_existing_triplet (pool : PortPool) (rdp conl xp : Nat) :
    Except Str Unit × PortPool :=
  match add_existing_rdp pool rdp with
  | (.error e, p1) => (.error e, p1)
  | (.ok _, p1) =>
    match add_existing_console p1 conl with
    | (.error e, p2) => (.error e, p2)
    | (.ok _, p2) => add_existing_xpra p2 xp

end PortPool

/-! ## Basic facts about the `HashSet` model -/

theorem mem_hsInsert {l : List Nat} {p q : Nat} (h : q ∈ hsInsert l p) : q = p ∨ q ∈ l := by
  unfold hsInsert at h
  by_cases hp : p ∈ l
  · simp [hp] at h; exact Or.inr h
  · simp [hp] at h; exact h

theorem nodup_hsInsert (l : List Nat) (p : Nat) (h : l.Nodup) : (hsInsert l p).Nodup := by
  unfold hsInsert
  by_cases hp : p ∈ l
  · simpa [hp]
  · simpa [hp] using h

theorem mem_hsRemove {l : List Nat} {p q : Nat} (h : q ∈ hsRemove l p) : q ∈ l :=
  List.mem_of_mem_filter h

theorem nodup_hsRemove (l : List Nat) (p : Nat) (h : l.Nodup) : (hsRemove l p).Nodup :=
  h.filter _

/-! ## The port-pool invariant (claim C5) -/

/-- Every allocated port lies in its configured range, and no allocation
set contains a duplicate. -/
def PoolInv (pool : PortPool) : Prop :=
  (∀ p ∈ pool.allocated_rdp, pool.rdp_start ≤ p ∧ p < pool.rdp_end) ∧
  (∀ p ∈ pool.allocated_console, pool.console_start ≤ p ∧ p < pool.console_end) ∧
  (∀ p ∈ pool.allocated_xpra, pool.xpra_start ≤ p ∧ p < pool.xpra_end) ∧
  pool.allocated_rdp.Nodup ∧ pool.allocated_console.Nodup ∧ pool.allocated_xpra.Nodup

theorem firstFree_some {s e : Nat} {alloc : List Nat} {p : Nat}
    (h : PortPool.firstFree s e alloc = some p) : s ≤ p ∧ p < e := by
  unfold PortPool.firstFree at h
  have hm := List.mem_of_find?_eq_some h
  rw [List.mem_range'_1] at hm
  omega

theorem allocate_rdp_inv (pool : PortPool) (h : PoolInv pool) :
    PoolInv (pool.allocate_rdp).2 := by
  unfold PortPool.allocate_rdp
  cases hf : PortPool.firstFree pool.rdp_start pool.rdp_end pool.allocated_rdp with
  | none => simpa using h
  | some p =>
    obtain ⟨h1, h2, h3, n1, n2, n3⟩ := h
    refine ⟨?_, h2, h3, nodup_hsInsert _ _ n1, n2, n3⟩
    intro q hq
    rcases mem_hsInsert hq with rfl | hq'
    · exact firstFree_some hf
    · exact h1 q hq'

theorem allocate_console_inv (pool : PortPool) (h : PoolInv pool) :
    PoolInv (pool.allocate_console).2 := by
  unfold PortPool.allocate_console
  cases hf : PortPool.firstFree pool.console_start pool.console_end pool.allocated_console with
  | none => simpa using h
  | some p =>
    obtain ⟨h1, h2, h3, n1, n2, n3⟩ := h
    refine ⟨h1, ?_, h3, n1, nodup_hsInsert _ _ n2, n3⟩
    intro q hq
    rcases mem_hsInsert hq with rfl | hq'
    · exact firstFree_some hf
    · exact h2 q hq'

theorem allocate_xpra_inv (pool : PortPool) (h : PoolInv pool) :
    PoolInv (pool.allocate_xpra).2 := by
  unfold PortPool.allocate_xpra
  cases hf : PortPool.firstFree pool.xpra_start pool.xpra_end pool.allocated_xpra with
  | none => simpa using h
  | some p =>
    obtain ⟨h1, h2, h3, n1, n2, n3⟩ := h
    refine ⟨h1, h2, ?_, n1, n2, nodup_hsInsert _ _ n3⟩
    intro q hq
    rcases mem_hsInsert hq with rfl | hq'
    · exact firstFree_some hf
    · exact h3 q hq'

theorem allocate_pair_inv (pool : PortPool) (h : PoolInv pool) :
    PoolInv (pool.allocate_pair).2 := by
  unfold PortPool.allocate_pair
  split
  next p1 heq =>
    have h1 := allocate_rdp_inv pool h
    rw [heq] at h1
    exact h1
  next r p1 heq =>
    have h1 := allocate_rdp_inv pool h
    rw [heq] at h1
    split
    next p2 heq2 =>
      have h2 := allocate_console_inv p1 h1
      rw [heq2] at h2
      exact h2
    next c p2 heq2 =>
      have h2 := allocate_console_inv p1 h1
      rw [heq2] at h2
      exact h2

theorem allocate_triplet_inv (pool : PortPool) (h : PoolInv pool) :
    PoolInv (pool.allocate_triplet).2 := by
  unfold PortPool.allocate_triplet
  split
  next p1 heq =>
    have h1 := allocate_rdp_inv pool h
    rw [heq] at h1
    exact h1
  next r p1 heq =>
    have h1 := allocate_rdp_inv pool h
    rw [heq] at h1
    split
    next p2 heq2 =>
      have h2 := allocate_console_inv p1 h1
      rw [heq2] at h2
      exact h2
    next c p2 heq2 =>
      have h2 := allocate_console_inv p1 h1
      rw [heq2] at h2
      split
      next p3 heq3 =>
        have h3 := allocate_xpra_inv p2 h2
        rw [heq3] at h3
        exact h3
      next x p3 heq3 =>
        have h3 := allocate_xpra_inv p2 h2
        rw [heq3] at h3
        exact h3

theorem release_rdp_inv (pool : PortPool) (q : Nat) (h : PoolInv pool) :
    PoolInv (pool.release_rdp q) := by
  obtain ⟨h1, h2, h3, n1, n2, n3⟩ := h
  exact ⟨fun p hp => h1 p (mem_hsRemove hp), h2, h3, nodup_hsRemove _ _ n1, n2, n3⟩

theorem release_console_inv (pool : PortPool) (q : Nat) (h : PoolInv pool) :
    PoolInv (pool.release_console q) := by
  obtain ⟨h1, h2, h3, n1, n2, n3⟩ := h
  exact ⟨h1, fun p hp => h2 p (mem_hsRemove hp), h3, n1, nodup_hsRemove _ _ n2, n3⟩

theorem release_xpra_inv (pool : PortPool) (q : Nat) (h : PoolInv pool) :
    PoolInv (pool.release_xpra q) := by
  obtain ⟨h1, h2, h3, n1, n2, n3⟩ := h
  exact ⟨h1, h2, fun p hp => h3 p (mem_hsRemove hp), n1, n2, nodup_hsRemove _ _ n3⟩

/-- The allocate/release operations a client can perform on the pool. -/
inductive PoolOp where
  | allocRdp | allocConsole | allocXpra | allocPair | allocTriplet
  | relRdp (p : Nat) | relConsole (p : Nat) | relXpra (p : Nat)
  | relPair (p q : Nat) | relTriplet (p q r : Nat)
deriving DecidableEq, Repr

def applyOp (pool : PortPool) : PoolOp → PortPool
  | .allocRdp => (pool.allocate_rdp).2
  | .allocConsole => (pool.allocate_console).2
  | .allocXpra => (pool.allocate_xpra).2
  | .allocPair => (pool.allocate_pair).2
  | .allocTriplet => (pool.allocate_triplet).2
  | .relRdp p => pool.release_rdp p
  | .relConsole p => pool.release_console p
  | .relXpra p => pool.release_xpra p
  | .relPair p q => pool.release_pair p q
  | .relTriplet p q r => pool.release_triplet p q r

def applyOps (pool : PortPool) (ops : List PoolOp) : PortPool :=
  ops.foldl applyOp pool

theorem applyOp_inv (pool : PortPool) (op : PoolOp) (h : PoolInv pool) :
    PoolInv (applyOp pool op) := by
  cases op with
  | allocRdp => exact allocate_rdp_inv pool h
  | allocConsole => exact allocate_console_inv pool h
  | allocXpra => exact allocate_xpra_inv pool h
  | allocPair => exact allocate_pair_inv pool h
  | allocTriplet => exact allocate_triplet_inv pool h
  | relRdp p => exact release_rdp_inv pool p h
  | relConsole p => exact release_console_inv pool p h
  | relXpra p => exact release_xpra_inv pool p h
  | relPair p q => exact release_console_inv _ q (release_rdp_inv pool p h)
  | relTriplet p q r =>
      exact release_xpra_inv _ r (release_console_inv _ q (release_rdp_inv pool p h))

theorem applyOps_inv (ops : List PoolOp) (pool : PortPool) (h : PoolInv pool) :
    PoolInv (applyOps pool ops) := by
  induction ops generalizing pool with
  | nil => exact h
  | cons op rest ih => exact ih (applyOp pool op) (applyOp_inv pool op h)

theorem new_inv (rdpS rdpE conS conE xpS xpE : Nat) :
    PoolInv (PortPool.new rdpS rdpE conS conE xpS xpE) := by
  refine ⟨?_, ?_, ?_, ?_, ?_, ?_⟩ <;> simp [PortPool.new]

/-- C5: for all sequences of allocate and release operations starting
from a fresh pool, each of the three currently-allocated port sets is a
subset of its configured range and contains no duplicate ports. -/
theorem portPool_alloc_release_invariant
    (rdpS rdpE conS conE xpS xpE : Nat) (ops : List PoolOp) :
    PoolInv (applyOps (PortPool.new rdpS rdpE conS conE xpS xpE) ops) :=
  applyOps_inv ops _ (new_inv rdpS rdpE conS conE xpS xpE)

/-- C1: the claim says a failing `allocate_pair` / `allocate_triplet`
releases every port claimed during the call, leaving the allocation sets
as they were.  The code does not: with an empty console range,
`allocate_pair` claims an RDP port, fails on the console range via `?`,
and leaves the RDP port allocated; likewise `allocate_triplet` with an
empty XPRA range leaks the RDP and console ports it already claimed. -/
theorem allocate_set_leaks_on_partial_exhaustion :
    ((PortPool.new 3390 3391 8081 8081 14500 14501).allocate_pair.1 = none ∧
      (PortPool.new 3390 3391 8081 8081 14500 14501).allocate_pair.2.allocated_rdp = [3390] ∧
      (PortPool.new 3390 3391 8081 8081 14500 14501).allocated_rdp = []) ∧
    ((PortPool.new 3390 3391 8081 8082 14500 14500).allocate_triplet.1 = none ∧
      (PortPool.new 3390 3391 8081 8082 14500 14500).allocate_triplet.2.allocated_rdp = [3390] ∧
      (PortPool.new 3390 3391 8081 8082 14500 14500).allocate_triplet.2.allocated_console = [8081] ∧
      (PortPool.new 3390 3391 8081 8082 14500 14500).allocated_rdp = [] ∧
      (PortPool.new 3390 3391 8081 8082 14500 14500).allocated_console = []) := by
  decide

/-! ## Instance data model (`src/openzt-instance-manager/src/instance.rs`)

`DateTime<Utc>` timestamps are opaque to every claim; they are modelled
as `Nat`.  The `f64` CPU-limit override is only carried around, never
computed with, so it is modelled as an opaque `Option Rat`. -/

inductive InstanceStatus where
  | Creating
  | Running
  | Stopped
  | Error (msg : Str)
deriving DecidableEq, Repr

structure InstanceConfig where
  rdp_password : Option Str
  wine_debug_level : Option Str
  cpulimit : Option Rat
deriving DecidableEq, Repr

/-- Rust `InstanceConfig::default()`: every field `None`. -/
def InstanceConfig.default : InstanceConfig :=
  { rdp_password := none, wine_debug_level := none, cpulimit := none }

structure Instance where
  id : Str
  container_id : Str
  rdp_port : Nat
  console_port : Nat
  xpra_port : Nat
  status : InstanceStatus
  created_at : Nat
  config : InstanceConfig
deriving DecidableEq, Repr

/-! ## Recovery (`src/openzt-instance-manager/src/state.rs` and the
recovery half of `src/openzt-instance-manager/src/docker.rs`)

External calls are oracles: `parseUuidOk` stands for
`Uuid::parse_str(..).is_ok()` and `inspect` for
`DockerManager::inspect_container_for_recovery` keyed by container id.
The registry `HashMap` is modelled as an association list whose `insert`
replaces an existing binding. -/

structure ContainerSummary where
  names : Option (List Str)
  id : Option Str
deriving DecidableEq, Repr

structure RecoveredInstanceInfo where
  container_id : Str
  rdp_port : Nat
  console_port : Nat
  xpra_port : Nat
  status : InstanceStatus
  created_at : Nat
  config : InstanceConfig
deriving DecidableEq, Repr

/-- Rust `str::strip_prefix`. -/
def stripPrefixStr (pre s : Str) : Option Str :=
  if pre.isPrefixOf s then some (s.drop pre.length) else none

/-- Rust `HashMap::insert`: replace the binding if the key is present,
otherwise add it. -/
def regInsert {α : Type} (reg : List (Str × α)) (k : Str) (v : α) : List (Str × α) :=
  if reg.any (fun e => e.1 = k) then
    reg.map (fun e => if e.1 = k then (k, v) else e)
  else
    reg ++ [(k, v)]

/-- The name filter of `DockerManager::list_containers_with_prefix`. -/
def containerNameMatches (pre : Str) (c : ContainerSummary) : Bool :=
  match c.names.bind List.head? with
  | some name => (str "/" ++ pre).isPrefixOf name
  | none => false

def listContainersWithPrefix (pre : Str) (containers : List ContainerSummary) :
    List ContainerSummary :=
  containers.filter (containerNameMatches pre)

/-- The `for container in containers` loop of `AppState::recover_instances`.
`?` aborts the whole loop with an error; `continue` moves to the next
container.  On a failed `add_existing_triplet` the partially mutated pool
is kept (the Rust call mutated `self.port_pool` in place). -/
def recover_loop (pre : Str) (parseUuidOk : Str → Bool)
    (inspect : Str → Except Str RecoveredInstanceInfo) :
    PortPool → List (Str × Instance) → Nat → List ContainerSummary →
    Except Str (PortPool × List (Str × Instance) × Nat)
  | pool, insts, cnt, [] => .ok (pool, insts, cnt)
  | pool, insts, cnt, c :: rest =>
    match c.names.bind List.head? with
    | none => .error (str "Container missing name")
    | some name =>
      match stripPrefixStr (str "/" ++ pre) name with
      | none => .error (str "Invalid container name format: " ++ name)
      | some instance_id =>
        if parseUuidOk instance_id = false then
          recover_loop pre parseUuidOk inspect pool insts cnt rest
        else
          match c.id with
          | none => .error (str "Container missing ID")
          | some container_id =>
            match inspect container_id with
            | .ok info =>
              match pool.add_existing_triplet info.rdp_port info.console_port info.xpra_port with
              | (.error _, pool1) =>
                recover_loop pre parseUuidOk inspect pool1 insts cnt rest
              | (.ok _, pool1) =>
                recover_loop pre parseUuidOk inspect pool1
                  (regInsert insts instance_id
                    { id := instance_id
                      container_id := info.container_id
                      rdp_port := info.rdp_port
                      console_port := info.console_port
                      xpra_port := info.xpra_port
                      status := info.status
                      created_at := info.created_at
                      config := info.config })
                  (cnt + 1) rest
            | .error _ =>
              recover_loop pre parseUuidOk inspect pool insts cnt rest

/-- Rust `AppState::recover_instances`, starting from the registry and pool of
the current state. -/
def recover_instances (pool : PortPool) (insts : List (Str × Instance)) (pre : Str)
    (parseUuidOk : Str → Bool) (inspect : Str → Except Str RecoveredInstanceInfo)
    (containers : List ContainerSummary) :
    Except Str (PortPool × List (Str × Instance) × Nat) :=
  recover_loop pre parseUuidOk inspect pool insts 0 containers

/-! ## Registering existing allocations (claims C6 and C3) -/

theorem add_existing_rdp_inv (pool : PortPool) (q : Nat) (h : PoolInv pool) :
    PoolInv (pool.add_existing_rdp q).2 := by
  unfold PortPool.add_existing_rdp
  split
  · exact h
  · next hq =>
    rw [not_not] at hq
    obtain ⟨h1, h2, h3, n1, n2, n3⟩ := h
    refine ⟨?_, h2, h3, nodup_hsInsert _ _ n1, n2, n3⟩
    intro p hp
    rcases mem_hsInsert hp with rfl | hp'
    · exact hq
    · exact h1 p hp'

theorem add_existing_console_inv (pool : PortPool) (q : Nat) (h : PoolInv pool) :
    PoolInv (pool.add_existing_console q).2 := by
  unfold PortPool.add_existing_console
  split
  · exact h
  · next hq =>
    rw [not_not] at hq
    obtain ⟨h1, h2, h3, n1, n2, n3⟩ := h
    refine ⟨h1, ?_, h3, n1, nodup_hsInsert _ _ n2, n3⟩
    intro p hp
    rcases mem_hsInsert hp with rfl | hp'
    · exact hq
    · exact h2 p hp'

theorem add_existing_xpra_inv (pool : PortPool) (q : Nat) (h : PoolInv pool) :
    PoolInv (pool.add_existing_xpra q).2 := by
  unfold PortPool.add_existing_xpra
  split
  · exact h
  · next hq =>
    rw [not_not] at hq
    obtain ⟨h1, h2, h3, n1, n2, n3⟩ := h
    refine ⟨h1, h2, ?_, n1, n2, nodup_hsInsert _ _ n3⟩
    intro p hp
    rcases mem_hsInsert hp with rfl | hp'
    · exact hq
    · exact h3 p hp'

theorem add_existing_triplet_inv (pool : PortPool) (r c x : Nat) (h : PoolInv pool) :
    PoolInv (pool.add_existing_triplet r c x).2 := by
  unfold PortPool.add_existing_triplet
  split
  next e p1 heq =>
    have h1 := add_existing_rdp_inv pool r h
    rw [heq] at h1
    exact h1
  next u p1 heq =>
    have h1 := add_existing_rdp_inv pool r h
    rw [heq] at h1
    split
    next e p2 heq2 =>
      have h2 := add_existing_console_inv p1 c h1
      rw [heq2] at h2
      exact h2
    next u2 p2 heq2 =>
      have h2 := add_existing_console_inv p1 c h1
      rw [heq2] at h2
      exact add_existing_xpra_inv p2 x h2

theorem add_existing_triplet_isOk (pool : PortPool) (r c x : Nat) :
    (pool.add_existing_triplet r c x).1.isOk = true ↔
      ((pool.rdp_start ≤ r ∧ r < pool.rdp_end) ∧
        (pool.console_start ≤ c ∧ c < pool.console_end) ∧
        (pool.xpra_start ≤ x ∧ x < pool.xpra_end)) := by
  by_cases h1 : pool.rdp_start ≤ r ∧ r < pool.rdp_end
  · by_cases h2 : pool.console_start ≤ c ∧ c < pool.console_end
    · by_cases h3 : pool.xpra_start ≤ x ∧ x < pool.xpra_end
      · simp [PortPool.add_existing_triplet, PortPool.add_existing_rdp,
          PortPool.add_existing_console, PortPool.add_existing_xpra,
          h1, h2, h3, Except.isOk, Except.toBool]
      · simp [PortPool.add_existing_triplet, PortPool.add_existing_rdp,
          PortPool.add_existing_console, PortPool.add_existing_xpra,
          h1, h2, h3, Except.isOk, Except.toBool]
    · simp [PortPool.add_existing_triplet, PortPool.add_existing_rdp,
        PortPool.add_existing_console, h1, h2, Except.isOk, Except.toBool]
  · simp [PortPool.add_existing_triplet, PortPool.add_existing_rdp, h1,
      Except.isOk, Except.toBool]

/-- C6 counterexample: `add_existing_triplet` on a triplet whose console
port is out of range fails, as the claim says, but the failed call does
not leave the allocated sets unchanged: the in-range RDP port validated
before the failure stays allocated. -/
theorem add_existing_triplet_failure_mutates_pool :
    ((PortPool.new 10 20 30 40 50 60).add_existing_triplet 10 99 55).1.isOk = false ∧
    ((PortPool.new 10 20 30 40 50 60).add_existing_triplet 10 99 55).2.allocated_rdp ≠
      (PortPool.new 10 20 30 40 50 60).allocated_rdp := by
  decide

theorem recover_loop_ok (pre : Str) (pu : Str → Bool)
    (ins : Str → Except Str RecoveredInstanceInfo) :
    ∀ (containers : List ContainerSummary) (pool : PortPool)
      (insts : List (Str × Instance)) (cnt : Nat),
      (∀ c ∈ containers, containerNameMatches pre c = true ∧ c.id.isSome = true) →
      ∃ pool2 insts2 n,
        recover_loop pre pu ins pool insts cnt containers = .ok (pool2, insts2, n) ∧
        n ≤ cnt + containers.length := by
  intro containers
  induction containers with
  | nil =>
    intro pool insts cnt _
    exact ⟨pool, insts, cnt, rfl, by omega⟩
  | cons c rest ih =>
    intro pool insts cnt h
    obtain ⟨hname, hid⟩ := h c (List.mem_cons_self c rest)
    have hrest : ∀ c' ∈ rest, containerNameMatches pre c' = true ∧ c'.id.isSome = true :=
      fun c' hc' => h c' (List.mem_cons_of_mem c hc')
    unfold containerNameMatches at hname
    cases hb : c.names.bind List.head? with
    | none => rw [hb] at hname; exact absurd hname (by simp)
    | some name =>
      rw [hb] at hname
      have hpfx : str "/" ++ pre <+: name := by simpa using hname
      have hstrip : stripPrefixStr (str "/" ++ pre) name = some (name.drop (str "/" ++ pre).length) := by
        simp [stripPrefixStr, hpfx]
      cases hcid : c.id with
      | none => rw [hcid] at hid; exact absurd hid (by simp)
      | some cid =>
        by_cases hpu : pu (name.drop (str "/" ++ pre).length) = false
        · obtain ⟨pool2, insts2, n, heq, hn⟩ := ih pool insts cnt hrest
          refine ⟨pool2, insts2, n, ?_, by simpa using Nat.le_succ_of_le hn⟩
          simp only [recover_loop, hb, hstrip, hpu, if_true]
          exact heq
        · cases hins : ins cid with
          | error e =>
            obtain ⟨pool2, insts2, n, heq, hn⟩ := ih pool insts cnt hrest
            refine ⟨pool2, insts2, n, ?_, by simpa using Nat.le_succ_of_le hn⟩
            simp only [recover_loop, hb, hstrip, hpu, if_false, hcid, hins]
            exact heq
          | ok info =>
            cases hadd : pool.add_existing_triplet info.rdp_port info.console_port info.xpra_port with
            | mk res pool1 =>
              cases res with
              | error e =>
                obtain ⟨pool2, insts2, n, heq, hn⟩ := ih pool1 insts cnt hrest
                refine ⟨pool2, insts2, n, ?_, by simpa using Nat.le_succ_of_le hn⟩
                simp only [recover_loop, hb, hstrip, hpu, if_false, hcid, hins, hadd]
                exact heq
              | ok u =>
                obtain ⟨pool2, insts2, n, heq, hn⟩ :=
                  ih pool1
                    (regInsert insts (name.drop (str "/" ++ pre).length)
                      { id := name.drop (str "/" ++ pre).length
                        container_id := info.container_id
                        rdp_port := info.rdp_port
                        console_port := info.console_port
                        xpra_port := info.xpra_port
                        status := info.status
                        created_at := info.created_at
                        config := info.config })
                    (cnt + 1) hrest
                refine ⟨pool2, insts2, n, ?_, by simp at hn ⊢; omega⟩
                simp only [recover_loop, hb, hstrip, hpu, if_false, hcid, hins, hadd]
                exact heq

/-- C3 counterexample: a container list that the prefix scan returns
unchanged, whose first container's name strips to a valid hyphenated
UUID (so `Uuid::parse_str` accepts it — the oracle maps exactly the two
valid UUIDs appearing here to `true`) but which lacks a runtime id;
`recover_instances` aborts the whole scan with an error instead of
skipping it, so the second (fully recoverable) container is never
processed. -/
theorem recover_aborts_on_missing_id :
    listContainersWithPrefix (str "zt-")
        [⟨some [str "/zt-aaaaaaaa-aaaa-aaaa-aaaa-aaaaaaaaaaaa"], none⟩,
         ⟨some [str "/zt-bbbbbbbb-bbbb-bbbb-bbbb-bbbbbbbbbbbb"], some (str "cid1")⟩] =
      [⟨some [str "/zt-aaaaaaaa-aaaa-aaaa-aaaa-aaaaaaaaaaaa"], none⟩,
       ⟨some [str "/zt-bbbbbbbb-bbbb-bbbb-bbbb-bbbbbbbbbbbb"], some (str "cid1")⟩] ∧
    recover_instances (PortPool.new 10 20 30 40 50 60) [] (str "zt-")
        (fun s => (s == str "aaaaaaaa-aaaa-aaaa-aaaa-aaaaaaaaaaaa") ||
          (s == str "bbbbbbbb-bbbb-bbbb-bbbb-bbbbbbbbbbbb"))
        (fun _ => .ok ⟨str "cid1", 10, 30, 50, .Running, 0, InstanceConfig.default⟩)
        [⟨some [str "/zt-aaaaaaaa-aaaa-aaaa-aaaa-aaaaaaaaaaaa"], none⟩,
         ⟨some [str "/zt-bbbbbbbb-bbbb-bbbb-bbbb-bbbbbbbbbbbb"], some (str "cid1")⟩] =
      .error (str "Container missing ID") := by
  constructor
  · rfl
  · rfl

/-- C3 (amended): for every scan result in which each container carries a
runtime id, recovery processes the containers independently — an
unparsable identifier, a failed inspection, or a failed port registration
is skipped and the loop continues, returning a count bounded by the list
length; but a missing runtime id (or a missing name or a name without the
prefix, which the scan filter rules out) aborts the whole scan. -/
theorem recover_skips_per_container_failures (pre : Str) (pu : Str → Bool)
    (ins : Str → Except Str RecoveredInstanceInfo) (pool : PortPool)
    (insts : List (Str × Instance)) (cnt : Nat) :
    (∀ containers : List ContainerSummary,
      (∀ c ∈ containers, containerNameMatches pre c = true ∧ c.id.isSome = true) →
      ∃ pool2 insts2 n,
        recover_loop pre pu ins pool insts cnt containers = .ok (pool2, insts2, n) ∧
        n ≤ cnt + containers.length) ∧
    (∀ (c : ContainerSummary) rest name iid,
      c.names.bind List.head? = some name →
      stripPrefixStr (str "/" ++ pre) name = some iid →
      pu iid = false →
      recover_loop pre pu ins pool insts cnt (c :: rest) =
        recover_loop pre pu ins pool insts cnt rest) ∧
    (∀ (c : ContainerSummary) rest name iid cid e,
      c.names.bind List.head? = some name →
      stripPrefixStr (str "/" ++ pre) name = some iid →
      pu iid = true →
      c.id = some cid →
      ins cid = .error e →
      recover_loop pre pu ins pool insts cnt (c :: rest) =
        recover_loop pre pu ins pool insts cnt rest) ∧
    (∀ (c : ContainerSummary) rest name iid cid info e pool1,
      c.names.bind List.head? = some name →
      stripPrefixStr (str "/" ++ pre) name = some iid →
      pu iid = true →
      c.id = some cid →
      ins cid = .ok info →
      pool.add_existing_triplet info.rdp_port info.console_port info.xpra_port =
        (.error e, pool1) →
      recover_loop pre pu ins pool insts cnt (c :: rest) =
        recover_loop pre pu ins pool1 insts cnt rest) := by
  refine ⟨fun containers h => recover_loop_ok pre pu ins containers pool insts cnt h, ?_, ?_, ?_⟩
  · intro c rest name iid hb hstrip hpu
    simp only [recover_loop, hb, hstrip, hpu, if_true]
  · intro c rest name iid cid e hb hstrip hpu hcid hins
    simp only [recover_loop, hb, hstrip, hpu, Bool.true_eq_false, if_false, hcid, hins]
  · intro c rest name iid cid info e pool1 hb hstrip hpu hcid hins hadd
    simp only [recover_loop, hb, hstrip, hpu, Bool.true_eq_false, if_false, hcid, hins, hadd]

/-- Closed instantiation of the amended C3 theorem: a scan result whose
containers carry ids, with one identifier `Uuid::parse_str` rejects (the
oracle maps exactly the valid UUID appearing here to `true`) among them,
recovers exactly the parseable container and skips the other. -/
theorem recover_skips_per_container_failures_witness :
    recover_loop (str "zt-")
        (fun s => s == str "bbbbbbbb-bbbb-bbbb-bbbb-bbbbbbbbbbbb")
        (fun _ => .ok ⟨str "cid1", 10, 30, 50, .Running, 0, InstanceConfig.default⟩)
        (PortPool.new 10 20 30 40 50 60) [] 0
        [⟨some [str "/zt-not-a-uuid"], some (str "cid0")⟩,
         ⟨some [str "/zt-bbbbbbbb-bbbb-bbbb-bbbb-bbbbbbbbbbbb"], some (str "cid1")⟩] =
      recover_loop (str "zt-")
        (fun s => s == str "bbbbbbbb-bbbb-bbbb-bbbb-bbbbbbbbbbbb")
        (fun _ => .ok ⟨str "cid1", 10, 30, 50, .Running, 0, InstanceConfig.default⟩)
        (PortPool.new 10 20 30 40 50 60) [] 0
        [⟨some [str "/zt-bbbbbbbb-bbbb-bbbb-bbbb-bbbbbbbbbbbb"], some (str "cid1")⟩] ∧
    ∃ pool2 insts2 n,
      recover_loop (str "zt-")
          (fun s => s == str "bbbbbbbb-bbbb-bbbb-bbbb-bbbbbbbbbbbb")
          (fun _ => .ok ⟨str "cid1", 10, 30, 50, .Running, 0, InstanceConfig.default⟩)
          (PortPool.new 10 20 30 40 50 60) [] 0
          [⟨some [str "/zt-not-a-uuid"], some (str "cid0")⟩,
           ⟨some [str "/zt-bbbbbbbb-bbbb-bbbb-bbbb-bbbbbbbbbbbb"], some (str "cid1")⟩] =
        .ok (pool2, insts2, n) ∧ n ≤ 0 + 2 :=
  ⟨(recover_skips_per_container_failures (str "zt-")
      (fun s => s == str "bbbbbbbb-bbbb-bbbb-bbbb-bbbbbbbbbbbb")
      (fun _ => .ok ⟨str "cid1", 10, 30, 50, .Running, 0, InstanceConfig.default⟩)
      (PortPool.new 10 20 30 40 50 60) [] 0).2.1
      ⟨some [str "/zt-not-a-uuid"], some (str "cid0")⟩
      [⟨some [str "/zt-bbbbbbbb-bbbb-bbbb-bbbb-bbbbbbbbbbbb"], some (str "cid1")⟩]
      (str "/zt-not-a-uuid") (str "not-a-uuid") (by decide) (by decide) (by decide),
   (recover_skips_per_container_failures (str "zt-")
      (fun s => s == str "bbbbbbbb-bbbb-bbbb-bbbb-bbbbbbbbbbbb")
      (fun _ => .ok ⟨str "cid1", 10, 30, 50, .Running, 0, InstanceConfig.default⟩)
      (PortPool.new 10 20 30 40 50 60) [] 0).1
      [⟨some [str "/zt-not-a-uuid"], some (str "cid0")⟩,
       ⟨some [str "/zt-bbbbbbbb-bbbb-bbbb-bbbb-bbbbbbbbbbbb"], some (str "cid1")⟩]
      (by decide)⟩

/-- C6 (amended): registering an existing triplet during recovery
succeeds exactly when all three ports lie in their configured ranges, so
it fails (with an error, never a silent no-op) whenever any port is out
of range, and the recovery loop then skips importing that instance and
continues with the remaining containers.  The failed call may leave the
in-range ports validated before the failure marked allocated, but it
never adds an out-of-range port: the pool invariant is preserved. -/
theorem register_existing_triplet_amended (pool : PortPool) (r c x : Nat) :
    ((pool.add_existing_triplet r c x).1.isOk = true ↔
      ((pool.rdp_start ≤ r ∧ r < pool.rdp_end) ∧
        (pool.console_start ≤ c ∧ c < pool.console_end) ∧
        (pool.xpra_start ≤ x ∧ x < pool.xpra_end))) ∧
    (PoolInv pool → PoolInv (pool.add_existing_triplet r c x).2) ∧
    (∀ (pre : Str) (pu : Str → Bool) (ins : Str → Except Str RecoveredInstanceInfo)
        (insts : List (Str × Instance)) (cnt : Nat) (cs : ContainerSummary)
        rest name iid cid info e pool1,
      cs.names.bind List.head? = some name →
      stripPrefixStr (str "/" ++ pre) name = some iid →
      pu iid = true →
      cs.id = some cid →
      ins cid = .ok info →
      pool.add_existing_triplet info.rdp_port info.console_port info.xpra_port =
        (.error e, pool1) →
      recover_loop pre pu ins pool insts cnt (cs :: rest) =
        recover_loop pre pu ins pool1 insts cnt rest) := by
  refine ⟨add_existing_triplet_isOk pool r c x, add_existing_triplet_inv pool r c x, ?_⟩
  intro pre pu ins insts cnt cs rest name iid cid info e pool1 hb hstrip hpu hcid hins hadd
  simp only [recover_loop, hb, hstrip, hpu, Bool.true_eq_false, if_false, hcid, hins, hadd]

/-- Closed instantiation of the amended C6 theorem: a triplet whose
console port is out of range is rejected, the pool invariant survives the
failed registration, and the recovery loop skips that container. -/
theorem register_existing_triplet_amended_witness :
    ¬ (((PortPool.new 10 20 30 40 50 60).add_existing_triplet 10 99 55).1.isOk = true) ∧
    PoolInv ((PortPool.new 10 20 30 40 50 60).add_existing_triplet 10 99 55).2 ∧
    recover_loop (str "zt-")
        (fun s => s == str "aaaaaaaa-aaaa-aaaa-aaaa-aaaaaaaaaaaa")
        (fun _ => .ok ⟨str "cid1", 10, 99, 55, .Running, 0, InstanceConfig.default⟩)
        (PortPool.new 10 20 30 40 50 60) [] 0
        [⟨some [str "/zt-aaaaaaaa-aaaa-aaaa-aaaa-aaaaaaaaaaaa"], some (str "cid1")⟩] =
      recover_loop (str "zt-")
        (fun s => s == str "aaaaaaaa-aaaa-aaaa-aaaa-aaaaaaaaaaaa")
        (fun _ => .ok ⟨str "cid1", 10, 99, 55, .Running, 0, InstanceConfig.default⟩)
        ⟨10, 20, 30, 40, 50, 60, [10], [], []⟩ [] 0 [] :=
  ⟨fun h =>
      absurd ((register_existing_triplet_amended (PortPool.new 10 20 30 40 50 60) 10 99 55).1.mp h)
        (by decide),
   (register_existing_triplet_amended (PortPool.new 10 20 30 40 50 60) 10 99 55).2.1
     (new_inv 10 20 30 40 50 60),
   (register_existing_triplet_amended (PortPool.new 10 20 30 40 50 60) 10 99 55).2.2
     (str "zt-") (fun s => s == str "aaaaaaaa-aaaa-aaaa-aaaa-aaaaaaaaaaaa")
     (fun _ => .ok ⟨str "cid1", 10, 99, 55, .Running, 0, InstanceConfig.default⟩)
     [] 0 ⟨some [str "/zt-aaaaaaaa-aaaa-aaaa-aaaa-aaaaaaaaaaaa"], some (str "cid1")⟩ []
     (str "/zt-aaaaaaaa-aaaa-aaaa-aaaa-aaaaaaaaaaaa")
     (str "aaaaaaaa-aaaa-aaaa-aaaa-aaaaaaaaaaaa") (str "cid1")
     ⟨str "cid1", 10, 99, 55, .Running, 0, InstanceConfig.default⟩
     (str "Port outside console range") ⟨10, 20, 30, 40, 50, 60, [10], [], []⟩
     (by decide) (by decide) (by decide) rfl rfl rfl⟩

/-! ## Payload handling and instance creation
(`src/openzt-instance-manager/src/docker.rs` lines 229-260 and
`src/openzt-instance-manager/src/routes.rs` `create_instance`)

The base64 decode performed by the `base64` crate is an external
computation; its outcome is the input `decoded` (`none` models a decode
error, `some bytes` the decoded byte string, bytes as `Nat < 256`).  The
filesystem is modelled as the list of existing temp payload files;
`File::create` truncates or creates, i.e. set-insert.  `create_instance`
in this source revision allocates a pair and stores `vnc_port` /
`console_port`, so the registry record mirrors the fields the route
constructs. -/

structure RouteInstance where
  id : Str
  container_id : Str
  vnc_port : Nat
  console_port : Nat
  status : InstanceStatus
  created_at : Nat
  config : InstanceConfig
deriving DecidableEq, Repr

inductive ApiError where
  | NotFound
  | PortsExhausted
  | MaxInstancesReached
  | InvalidDll (msg : Str)
  | Internal (msg : Str)
deriving DecidableEq, Repr

structure CreateInstanceResponseR where
  instance_id : Str
  vnc_port : Nat
  console_port : Nat
  vnc_url : Str
  status : Str
deriving DecidableEq, Repr

/-- Decimal rendering used by `format!` for a port number. -/
def natToStr (n : Nat) : Str := (toString n).data

/-- The temp payload path `/tmp/openzt-{instance_id}.dll`. -/
def dllTempPath (instance_id : Str) : Str :=
  str "/tmp/openzt-" ++ instance_id ++ str ".dll"

/-- Set-insert into the modelled filesystem. -/
def insertFile (files : List Str) (path : Str) : List Str :=
  if path ∈ files then files else path :: files

/-- Rust `write_dll_to_temp`: validate the decoded payload (present,
at least 2 bytes, leading `MZ` = bytes 77, 90) and write it to the temp
path.  Returns the path and the new filesystem. -/
def write_dll_to_temp (instance_id : Str) (decoded : Option (List Nat))
    (files : List Str) : Except Str (Str × List Str) :=
  match decoded with
  | none => .error (str "Failed to decode base64 DLL")
  | some bytes =>
    if bytes.length < 2 then
      .error (str "DLL data is too short")
    else if ¬ (bytes.take 2 = [77, 90]) then
      .error (str "Invalid DLL format: missing MZ header")
    else
      .ok (dllTempPath instance_id, insertFile files (dllTempPath instance_id))

/-- Rust `cleanup_dll_temp`: remove the instance's temp payload file. -/
def cleanup_dll_temp (files : List Str) (instance_id : Str) : List Str :=
  files.filter (fun f => f ≠ dllTempPath instance_id)

/-- The server state touched by `create_instance`: the port pool and the
registry behind the lock, the configured ceiling, and the modelled
filesystem. -/
structure AppStateR where
  pool : PortPool
  instances : List (Str × RouteInstance)
  max_instances : Nat
  tempFiles : List Str
deriving DecidableEq, Repr

/-- The synchronous part of `create_instance` (everything up to the
detached container-creation task): allocate a pair, write the payload,
check the ceiling, insert the record. `instance_id` stands for the fresh
`Uuid::new_v4()` and `now` for `Utc::now()`. -/
def create_instance (st : AppStateR) (instance_id : Str)
    (decoded : Option (List Nat)) (cfg : Option InstanceConfig) (now : Nat) :
    Except ApiError CreateInstanceResponseR × AppStateR :=
  match st.pool.allocate_pair with
  | (none, pool1) => (.error .PortsExhausted, { st with pool := pool1 })
  | (some (vnc, conl), pool1) =>
    match write_dll_to_temp instance_id decoded st.tempFiles with
    | .error e => (.error (.InvalidDll e), { st with pool := pool1 })
    | .ok (_dll_path, files1) =>
      let inst : RouteInstance :=
        { id := instance_id
          container_id := []
          vnc_port := vnc
          console_port := conl
          status := .Creating
          created_at := now
          config := cfg.getD InstanceConfig.default }
      if st.max_instances ≤ st.instances.length then
        (.error .MaxInstancesReached,
          { st with pool := pool1.release_pair vnc conl, tempFiles := files1 })
      else
        (.ok { instance_id := instance_id
               vnc_port := vnc
               console_port := conl
               vnc_url := str "vnc://localhost:" ++ natToStr vnc
               status := str "creating" },
         { st with pool := pool1
                   instances := regInsert st.instances instance_id inst
                   tempFiles := files1 })

/-- C2: the claim says a payload that fails decoding or validation makes
`create_instance` return an invalid-payload error, release the ports
allocated earlier in the request, and insert nothing.  The code returns
the error and inserts nothing, but it does not release the allocated
pair: after each of the three validation failures (decode error, length
below 2, missing `MZ` header) the VNC and console ports remain
allocated. -/
theorem create_instance_invalid_payload_leaks_ports :
    (create_instance ⟨PortPool.new 3390 3400 8081 8091 14500 14510, [], 10, []⟩
        (str "i0") none none 0 =
      (.error (.InvalidDll (str "Failed to decode base64 DLL")),
        ⟨⟨3390, 3400, 8081, 8091, 14500, 14510, [3390], [8081], []⟩, [], 10, []⟩)) ∧
    (create_instance ⟨PortPool.new 3390 3400 8081 8091 14500 14510, [], 10, []⟩
        (str "i0") (some [77]) none 0 =
      (.error (.InvalidDll (str "DLL data is too short")),
        ⟨⟨3390, 3400, 8081, 8091, 14500, 14510, [3390], [8081], []⟩, [], 10, []⟩)) ∧
    (create_instance ⟨PortPool.new 3390 3400 8081 8091 14500 14510, [], 10, []⟩
        (str "i0") (some [0, 0, 0]) none 0 =
      (.error (.InvalidDll (str "Invalid DLL format: missing MZ header")),
        ⟨⟨3390, 3400, 8081, 8091, 14500, 14510, [3390], [8081], []⟩, [], 10, []⟩)) ∧
    ([3390] ≠ ([] : List Nat)) := by
  refine ⟨rfl, rfl, rfl, by decide⟩

/-- C4: the claim says a request hitting the maximum-instance ceiling
aborts with a capacity error, releases its ports, deletes its temporary
payload file, and inserts no registry entry, leaving pool and
payload-file state unchanged.  The code releases the ports (the pool is
restored exactly) and inserts nothing, but it never deletes the temp
file: the payload file written for the rejected request stays on disk. -/
theorem create_instance_capacity_keeps_temp_file :
    create_instance
        ⟨PortPool.new 3390 3400 8081 8091 14500 14510,
          [(str "a", ⟨str "a", str "c1", 3391, 8082, .Running, 0, InstanceConfig.default⟩)],
          1, []⟩
        (str "i0") (some [77, 90, 0]) none 0 =
      (.error .MaxInstancesReached,
        ⟨PortPool.new 3390 3400 8081 8091 14500 14510,
          [(str "a", ⟨str "a", str "c1", 3391, 8082, .Running, 0, InstanceConfig.default⟩)],
          1, [dllTempPath (str "i0")]⟩) ∧
    ([dllTempPath (str "i0")] ≠ ([] : List Str)) := by
  refine ⟨rfl, by decide⟩

/-! ## Status reconciliation
(`DockerManager::refresh_instance_status` in docker.rs and the refresh
loop of `list_instances` in routes.rs)

`inspect_container` is an oracle keyed by container id: it either returns
an inspect response (whose `state` may be missing) or an error message.
The 404 check of the source is a substring test on the error text.  The
model covers the connected-daemon path of `list_instances` (when the
`DockerManager::new()` guard fails, the source skips the whole refresh). -/

structure ContainerStateM where
  running : Option Bool
  status : Option Str
deriving DecidableEq, Repr

inductive InspectOutcome where
  | ok (response_state : Option ContainerStateM)
  | err (msg : Str)
deriving DecidableEq, Repr

/-- Rust `DockerManager::map_docker_status`. -/
def map_docker_status (st : ContainerStateM) : InstanceStatus :=
  match st.running with
  | some true => .Running
  | some false =>
    match st.status with
    | some s =>
      if s = str "exited" ∨ s = str "paused" then .Stopped
      else if s = str "created" then .Creating
      else .Error (str "Container state: " ++ s)
    | none => .Stopped
  | none => .Stopped

/-- Substring test, as in `e.to_string().contains(pat)`. -/
def containsSub (s pat : Str) : Bool :=
  (List.range (s.length + 1)).any (fun i => pat.isPrefixOf (s.drop i))

/-- Rust `DockerManager::refresh_instance_status`. -/
def refresh_instance_status (container_id : Str) (inspectResult : InspectOutcome) :
    Except Str (Option InstanceStatus) :=
  if container_id = [] then
    .ok (some .Creating)
  else
    match inspectResult with
    | .ok (some st) => .ok (some (map_docker_status st))
    | .ok none => .error (str "Missing state in inspect response")
    | .err e =>
      if containsSub e (str "404") || containsSub e (str "no such container") then
        .ok none
      else
        .error (str "Failed to inspect container: " ++ e)

/-- One iteration of the refresh loop of `list_instances`: refresh by
container id, then update the registry entry at the instance id
(`get_mut` point update; an absent id is a no-op). -/
def refreshStep (oracle : Str → InspectOutcome) (insts : List (Str × RouteInstance))
    (idcid : Str × Str) : List (Str × RouteInstance) :=
  match refresh_instance_status idcid.2 (oracle idcid.2) with
  | .ok (some s) =>
    insts.map (fun e => if e.1 = idcid.1 then (e.1, { e.2 with status := s }) else e)
  | .ok none =>
    insts.map (fun e =>
      if e.1 = idcid.1 then
        (e.1, { e.2 with status := .Error (str "Container deleted externally") })
      else e)
  | .error _ => insts

/-- The refresh loop of `list_instances`: snapshot `(id, container_id)`
pairs, then fold the per-instance refresh over the registry. -/
def list_instances_refresh (oracle : Str → InspectOutcome)
    (insts : List (Str × RouteInstance)) : List (Str × RouteInstance) :=
  (insts.map (fun e => (e.1, e.2.container_id))).foldl (refreshStep oracle) insts

/-- `list_instances` leaves everything but the registry statuses alone. -/
def list_instances_model (oracle : Str → InspectOutcome) (st : AppStateR) : AppStateR :=
  { st with instances := list_instances_refresh oracle st.instances }

/-- How one snapshot pair acts on one registry entry. -/
def refreshEntryUpd (oracle : Str → InspectOutcome) (idcid : Str × Str)
    (e : Str × RouteInstance) : Str × RouteInstance :=
  match refresh_instance_status idcid.2 (oracle idcid.2) with
  | .ok (some s) => if e.1 = idcid.1 then (e.1, { e.2 with status := s }) else e
  | .ok none =>
    if e.1 = idcid.1 then
      (e.1, { e.2 with status := .Error (str "Container deleted externally") })
    else e
  | .error _ => e

/-- The net effect of the whole refresh loop on one instance, determined
by that instance's own container id alone. -/
def applyOutcome (oracle : Str → InspectOutcome) (inst : RouteInstance) : RouteInstance :=
  match refresh_instance_status inst.container_id (oracle inst.container_id) with
  | .ok (some s) => { inst with status := s }
  | .ok none => { inst with status := .Error (str "Container deleted externally") }
  | .error _ => inst

theorem refreshStep_eq_map (oracle : Str → InspectOutcome)
    (insts : List (Str × RouteInstance)) (idcid : Str × Str) :
    refreshStep oracle insts idcid = insts.map (refreshEntryUpd oracle idcid) := by
  unfold refreshStep refreshEntryUpd
  cases refresh_instance_status idcid.2 (oracle idcid.2) with
  | error m => simp
  | ok o => cases o <;> simp

theorem foldl_refreshStep_eq_map (oracle : Str → InspectOutcome) :
    ∀ (pairs : List (Str × Str)) (acc : List (Str × RouteInstance)),
      pairs.foldl (refreshStep oracle) acc =
        acc.map (fun e => pairs.foldl (fun x p => refreshEntryUpd oracle p x) e) := by
  intro pairs
  induction pairs with
  | nil => intro acc; simp
  | cons p ps ih =>
    intro acc
    simp only [List.foldl_cons]
    rw [refreshStep_eq_map, ih, List.map_map]
    rfl

theorem refreshEntryUpd_ne (oracle : Str → InspectOutcome) (p : Str × Str)
    (e : Str × RouteInstance) (h : ¬ e.1 = p.1) :
    refreshEntryUpd oracle p e = e := by
  unfold refreshEntryUpd
  cases refresh_instance_status p.2 (oracle p.2) with
  | error m => rfl
  | ok o => cases o with
    | none => simp [h]
    | some s => simp [h]

theorem foldl_upd_of_no_key (oracle : Str → InspectOutcome) (e : Str × RouteInstance) :
    ∀ pairs : List (Str × Str), (∀ p ∈ pairs, ¬ e.1 = p.1) →
      pairs.foldl (fun x p => refreshEntryUpd oracle p x) e = e := by
  intro pairs
  induction pairs with
  | nil => intro _; rfl
  | cons p ps ih =>
    intro h
    simp only [List.foldl_cons]
    rw [refreshEntryUpd_ne oracle p e (h p (List.mem_cons_self p ps)), ih]
    exact fun q hq => h q (List.mem_cons_of_mem p hq)

theorem foldl_upd_entry (oracle : Str → InspectOutcome) (e : Str × RouteInstance)
    (pairs1 pairs2 : List (Str × Str))
    (h1 : ∀ p ∈ pairs1, ¬ e.1 = p.1) (h2 : ∀ p ∈ pairs2, ¬ e.1 = p.1) :
    (pairs1 ++ (e.1, e.2.container_id) :: pairs2).foldl
        (fun x p => refreshEntryUpd oracle p x) e =
      (e.1, applyOutcome oracle e.2) := by
  rw [List.foldl_append]
  rw [foldl_upd_of_no_key oracle e pairs1 (fun p hp => h1 p hp)]
  simp only [List.foldl_cons]
  have hstep : refreshEntryUpd oracle (e.1, e.2.container_id) e =
      (e.1, applyOutcome oracle e.2) := by
    unfold refreshEntryUpd applyOutcome
    cases refresh_instance_status e.2.container_id (oracle e.2.container_id) with
    | error m => simp
    | ok o => cases o <;> simp
  rw [hstep]
  exact foldl_upd_of_no_key oracle _ pairs2 (fun p hp => h2 p hp)

theorem list_instances_refresh_eq (oracle : Str → InspectOutcome)
    (insts : List (Str × RouteInstance)) (hnd : (insts.map Prod.fst).Nodup) :
    list_instances_refresh oracle insts =
      insts.map (fun e => (e.1, applyOutcome oracle e.2)) := by
  unfold list_instances_refresh
  rw [foldl_refreshStep_eq_map]
  apply List.map_congr_left
  intro e he
  obtain ⟨l1, l2, rfl⟩ := List.append_of_mem he
  rw [List.map_append, List.map_cons] at hnd
  have hd := List.nodup_append.mp hnd
  have hnotin1 : e.1 ∉ l1.map Prod.fst :=
    fun hmem => hd.2.2 hmem (List.mem_cons_self _ _)
  have hnotin2 : e.1 ∉ l2.map Prod.fst := (List.nodup_cons.mp hd.2.1).1
  rw [List.map_append, List.map_cons]
  have h1 : ∀ p ∈ l1.map (fun e => (e.1, e.2.container_id)), ¬ e.1 = p.1 := by
    intro p hp hEq
    rcases List.mem_map.mp hp with ⟨a, ha, rfl⟩
    exact hnotin1 (by rw [hEq]; exact List.mem_map_of_mem Prod.fst ha)
  have h2 : ∀ p ∈ l2.map (fun e => (e.1, e.2.container_id)), ¬ e.1 = p.1 := by
    intro p hp hEq
    rcases List.mem_map.mp hp with ⟨a, ha, rfl⟩
    exact hnotin2 (by rw [hEq]; exact List.mem_map_of_mem Prod.fst ha)
  exact foldl_upd_entry oracle e _ _ h1 h2

/-- C7: with distinct registry keys, the bulk refresh leaves the port
pool untouched and acts on every instance independently, entirely
determined by that instance's own refresh outcome: a container reported
not found (a 404-style inspect error on a non-empty container id) sets
the status to `Error "Container deleted externally"` while the record —
ports included — stays in the registry; any other runtime-communication
failure (a non-404 inspect error, or a response missing its state) leaves
the cached status untouched; and the refresh still completes for all
other instances, each getting its own outcome applied. -/
theorem reconciliation_drift_and_soft_errors (oracle : Str → InspectOutcome)
    (st : AppStateR) (hnd : (st.instances.map Prod.fst).Nodup) :
    ((list_instances_model oracle st).pool = st.pool) ∧
    ((list_instances_model oracle st).instances =
      st.instances.map (fun e => (e.1, applyOutcome oracle e.2))) ∧
    (∀ (inst : RouteInstance) (m : Str), inst.container_id ≠ [] →
      oracle inst.container_id = .err m →
      (containsSub m (str "404") || containsSub m (str "no such container")) = true →
      applyOutcome oracle inst =
        { inst with status := .Error (str "Container deleted externally") }) ∧
    (∀ (inst : RouteInstance) (m : Str), inst.container_id ≠ [] →
      oracle inst.container_id = .err m →
      (containsSub m (str "404") || containsSub m (str "no such container")) = false →
      applyOutcome oracle inst = inst) ∧
    (∀ inst : RouteInstance, inst.container_id ≠ [] →
      oracle inst.container_id = .ok none →
      applyOutcome oracle inst = inst) := by
  refine ⟨rfl, list_instances_refresh_eq oracle st.instances hnd, ?_, ?_, ?_⟩
  · intro inst m hcid horacle hc
    simp [applyOutcome, refresh_instance_status, hcid, horacle, hc]
  · intro inst m hcid horacle hc
    simp [applyOutcome, refresh_instance_status, hcid, horacle, hc]
  · intro inst hcid horacle
    simp [applyOutcome, refresh_instance_status, hcid, horacle]

/-- Closed instantiation of the C7 theorem: a two-instance registry where
one container was deleted externally (404) and the other hits a transient
runtime error — the first becomes `Error "Container deleted externally"`,
the second keeps its cached status, and the pool is untouched. -/
theorem reconciliation_drift_and_soft_errors_witness :
    (list_instances_model
        (fun cid => if cid = str "ca" then .err (str "404 not found") else .err (str "boom"))
        ⟨PortPool.new 3390 3400 8081 8091 14500 14510,
          [(str "a", ⟨str "a", str "ca", 3390, 8081, .Running, 0, ⟨none, none, none⟩⟩),
           (str "b", ⟨str "b", str "cb", 3391, 8082, .Running, 0, ⟨none, none, none⟩⟩)],
          10, []⟩).pool =
      PortPool.new 3390 3400 8081 8091 14500 14510 ∧
    applyOutcome
        (fun cid => if cid = str "ca" then .err (str "404 not found") else .err (str "boom"))
        ⟨str "a", str "ca", 3390, 8081, .Running, 0, ⟨none, none, none⟩⟩ =
      ⟨str "a", str "ca", 3390, 8081,
        .Error (str "Container deleted externally"), 0, ⟨none, none, none⟩⟩ ∧
    applyOutcome
        (fun cid => if cid = str "ca" then .err (str "404 not found") else .err (str "boom"))
        ⟨str "b", str "cb", 3391, 8082, .Running, 0, ⟨none, none, none⟩⟩ =
      ⟨str "b", str "cb", 3391, 8082, .Running, 0, ⟨none, none, none⟩⟩ :=
  ⟨(reconciliation_drift_and_soft_errors
      (fun cid => if cid = str "ca" then .err (str "404 not found") else .err (str "boom"))
      ⟨PortPool.new 3390 3400 8081 8091 14500 14510,
        [(str "a", ⟨str "a", str "ca", 3390, 8081, .Running, 0, ⟨none, none, none⟩⟩),
         (str "b", ⟨str "b", str "cb", 3391, 8082, .Running, 0, ⟨none, none, none⟩⟩)],
        10, []⟩ (by decide)).1,
   (reconciliation_drift_and_soft_errors
      (fun cid => if cid = str "ca" then .err (str "404 not found") else .err (str "boom"))
      ⟨PortPool.new 3390 3400 8081 8091 14500 14510,
        [(str "a", ⟨str "a", str "ca", 3390, 8081, .Running, 0, ⟨none, none, none⟩⟩),
         (str "b", ⟨str "b", str "cb", 3391, 8082, .Running, 0, ⟨none, none, none⟩⟩)],
        10, []⟩ (by decide)).2.2.1
      ⟨str "a", str "ca", 3390, 8081, .Running, 0, ⟨none, none, none⟩⟩
      (str "404 not found") (by decide) (by decide) (by decide),
   (reconciliation_drift_and_soft_errors
      (fun cid => if cid = str "ca" then .err (str "404 not found") else .err (str "boom"))
      ⟨PortPool.new 3390 3400 8081 8091 14500 14510,
        [(str "a", ⟨str "a", str "ca", 3390, 8081, .Running, 0, ⟨none, none, none⟩⟩),
         (str "b", ⟨str "b", str "cb", 3391, 8082, .Running, 0, ⟨none, none, none⟩⟩)],
        10, []⟩ (by decide)).2.2.2.1
      ⟨str "b", str "cb", 3391, 8082, .Running, 0, ⟨none, none, none⟩⟩
      (str "boom") (by decide) (by decide) (by decide)⟩

/-- C10: refreshing an instance whose container id is empty returns
`Ok(Some(Creating))` for every inspect outcome, without consulting the
runtime; such an instance is therefore never classified as deleted
externally, and after the bulk refresh its registry entry reads
`Creating`, never `Error`. -/
theorem refresh_empty_container_reports_creating (oracle : Str → InspectOutcome)
    (st : AppStateR) :
    (∀ o : InspectOutcome, refresh_instance_status [] o = .ok (some .Creating)) ∧
    (∀ inst : RouteInstance, inst.container_id = [] →
      applyOutcome oracle inst = { inst with status := .Creating }) ∧
    ((st.instances.map Prod.fst).Nodup →
      ∀ id inst, (id, inst) ∈ st.instances → inst.container_id = [] →
      (id, { inst with status := .Creating }) ∈ (list_instances_model oracle st).instances) := by
  have hrefresh : ∀ o : InspectOutcome, refresh_instance_status [] o = .ok (some .Creating) := by
    intro o
    simp [refresh_instance_status]
  have happly : ∀ inst : RouteInstance, inst.container_id = [] →
      applyOutcome oracle inst = { inst with status := .Creating } := by
    intro inst hc
    unfold applyOutcome
    rw [hc, hrefresh]
  refine ⟨hrefresh, happly, ?_⟩
  intro hnd id inst hmem hc
  have heq := list_instances_refresh_eq oracle st.instances hnd
  unfold list_instances_model
  simp only [heq]
  exact List.mem_map.mpr ⟨(id, inst), hmem, by rw [happly inst hc]⟩

/-- Closed instantiation of the C10 theorem: a just-accepted instance
with an empty container id is reported `Creating` by the refresh even
when the inspect oracle would answer with a 404 error. -/
theorem refresh_empty_container_reports_creating_witness :
    refresh_instance_status [] (.err (str "404")) = .ok (some .Creating) ∧
    (str "c",
        (⟨str "c", [], 3390, 8081, .Creating, 0, ⟨none, none, none⟩⟩ : RouteInstance)) ∈
      (list_instances_model (fun _ => .err (str "404"))
        ⟨PortPool.new 3390 3400 8081 8091 14500 14510,
          [(str "c", ⟨str "c", [], 3390, 8081, .Creating, 0, ⟨none, none, none⟩⟩)],
          10, []⟩).instances :=
  ⟨(refresh_empty_container_reports_creating (fun _ => .err (str "404"))
      ⟨PortPool.new 3390 3400 8081 8091 14500 14510,
        [(str "c", ⟨str "c", [], 3390, 8081, .Creating, 0, ⟨none, none, none⟩⟩)],
        10, []⟩).1 (.err (str "404")),
   (refresh_empty_container_reports_creating (fun _ => .err (str "404"))
      ⟨PortPool.new 3390 3400 8081 8091 14500 14510,
        [(str "c", ⟨str "c", [], 3390, 8081, .Creating, 0, ⟨none, none, none⟩⟩)],
        10, []⟩).2.2 (by decide) (str "c")
      ⟨str "c", [], 3390, 8081, .Creating, 0, ⟨none, none, none⟩⟩
      (by decide) rfl⟩

/-! ## Identifier resolution (`src/openzt-instance-manager/src/id_resolver.rs`)

The API fetch `client.list_instances()` is an oracle: its outcome is the
`fetch` argument.  Rust `str::trim` removes whitespace from both ends. -/

structure InstanceDetails where
  id : Str
  container_id : Str
  rdp_port : Nat
  console_port : Nat
  xpra_port : Nat
  rdp_url : Str
  xpra_url : Str
  status : Str
  created_at : Nat
  config : InstanceConfig
deriving DecidableEq, Repr

inductive ResolutionError where
  | NotFound (pre : Str)
  | Ambiguous (pre : Str) (matched : List InstanceDetails)
  | ApiError (msg : Str)
deriving DecidableEq, Repr

/-- Rust `str::trim`. -/
def strTrim (s : Str) : Str :=
  ((s.dropWhile Char.isWhitespace).reverse.dropWhile Char.isWhitespace).reverse

/-- Full UUID length. -/
def UUID_LENGTH : Nat := 36

/-- Rust `resolve_instance_id`: trim, pass a full-length input through
without consulting the list, otherwise fetch and match by prefix. -/
def resolve_instance_id (fetch : Except Str (List InstanceDetails)) (input : Str) :
    Except ResolutionError Str :=
  if (strTrim input).length = UUID_LENGTH then
    .ok (strTrim input)
  else
    match fetch with
    | .error e => .error (.ApiError e)
    | .ok instances =>
      match instances.filter (fun d => (strTrim input).isPrefixOf d.id) with
      | [] => .error (.NotFound (strTrim input))
      | [i] => .ok i.id
      | _ :: _ :: _ =>
        .error (.Ambiguous (strTrim input)
          (instances.filter (fun d => (strTrim input).isPrefixOf d.id)))

/-- Uniqueness test of `calculate_safe_id_length`: the set of prefixes at
the given length has as many elements as the list (`id[..len.min(id.len)]`
is `take len` on character lists; the `HashSet` cardinality is the length
of `dedup`). -/
def allUniqueAt (instances : List InstanceDetails) (len : Nat) : Bool :=
  ((instances.map (fun i => i.id.take len)).dedup).length == instances.length

/-- The display lengths the `loop` of `calculate_safe_id_length` visits:
it starts at 8, grows by 4, and the `length >= 36` arm caps the walk, so
the loop scans exactly this sequence. -/
def idLengthSeq : List Nat := [8, 12, 16, 20, 24, 28, 32, 36]

/-- The `loop` of `calculate_safe_id_length` as a scan of the visited
lengths: return the current length if all prefixes are distinct, return
36 once the cap is reached, otherwise step to the next length. -/
def safe_id_scan (instances : List InstanceDetails) : List Nat → Nat
  | [] => 36
  | n :: rest =>
    if allUniqueAt instances n then n
    else if 36 ≤ n then 36
    else safe_id_scan instances rest

/-- Rust `calculate_safe_id_length`. -/
def calculate_safe_id_length (instances : List InstanceDetails) : Nat :=
  if instances.isEmpty then 8 else safe_id_scan instances idLengthSeq

theorem allUniqueAt_iff (instances : List InstanceDetails) (len : Nat) :
    allUniqueAt instances len = true ↔
      (instances.map (fun i => i.id.take len)).Nodup := by
  unfold allUniqueAt
  rw [beq_iff_eq]
  constructor
  · intro h
    have hsub := List.dedup_sublist (instances.map (fun i => i.id.take len))
    have hlen : (instances.map (fun i => i.id.take len)).dedup.length =
        (instances.map (fun i => i.id.take len)).length := by
      rw [h, List.length_map]
    have hde := hsub.eq_of_length hlen
    rw [← hde]
    exact List.nodup_dedup _
  · intro h
    rw [List.Nodup.dedup h, List.length_map]

theorem calculate_safe_id_length_eq_find (instances : List InstanceDetails)
    (hne : instances ≠ []) :
    calculate_safe_id_length instances =
      (idLengthSeq.find? (allUniqueAt instances)).getD 36 := by
  have hne' : instances.isEmpty = false := by
    cases instances with
    | nil => exact absurd rfl hne
    | cons a l => rfl
  simp only [calculate_safe_id_length, hne', Bool.false_eq_true, if_false, idLengthSeq]
  by_cases h8 : allUniqueAt instances 8 = true
  · simp [safe_id_scan, List.find?, h8]
  · rw [Bool.not_eq_true] at h8
    by_cases h12 : allUniqueAt instances 12 = true
    · simp [safe_id_scan, List.find?, h8, h12]
    · rw [Bool.not_eq_true] at h12
      by_cases h16 : allUniqueAt instances 16 = true
      · simp [safe_id_scan, List.find?, h8, h12, h16]
      · rw [Bool.not_eq_true] at h16
        by_cases h20 : allUniqueAt instances 20 = true
        · simp [safe_id_scan, List.find?, h8, h12, h16, h20]
        · rw [Bool.not_eq_true] at h20
          by_cases h24 : allUniqueAt instances 24 = true
          · simp [safe_id_scan, List.find?, h8, h12, h16, h20, h24]
          · rw [Bool.not_eq_true] at h24
            by_cases h28 : allUniqueAt instances 28 = true
            · simp [safe_id_scan, List.find?, h8, h12, h16, h20, h24, h28]
            · rw [Bool.not_eq_true] at h28
              by_cases h32 : allUniqueAt instances 32 = true
              · simp [safe_id_scan, List.find?, h8, h12, h16, h20, h24, h28, h32]
              · rw [Bool.not_eq_true] at h32
                by_cases h36 : allUniqueAt instances 36 = true
                · simp [safe_id_scan, List.find?, h8, h12, h16, h20, h24, h28, h32, h36]
                · rw [Bool.not_eq_true] at h36
                  simp [safe_id_scan, List.find?, h8, h12, h16, h20, h24, h28, h32, h36]

/-- C9: `calculate_safe_id_length` returns 8 on an empty list; on a
non-empty list it returns the first length in 8, 12, …, 36 at which all
shown prefixes are pairwise distinct, and 36 when no such length exists
(the cap); uniqueness at a length is exactly `Nodup` of the prefix list;
and whenever two distinct instances share an 8-character id prefix the
result is at least 12. -/
theorem calculate_safe_id_length_spec (instances : List InstanceDetails) :
    (instances = [] → calculate_safe_id_length instances = 8) ∧
    (instances ≠ [] →
      calculate_safe_id_length instances =
        (idLengthSeq.find? (allUniqueAt instances)).getD 36) ∧
    (∀ len, allUniqueAt instances len = true ↔
      (instances.map (fun i => i.id.take len)).Nodup) ∧
    (∀ a ∈ instances, ∀ b ∈ instances, a ≠ b → a.id.take 8 = b.id.take 8 →
      12 ≤ calculate_safe_id_length instances) := by
  refine ⟨?_, fun hne => calculate_safe_id_length_eq_find instances hne,
    allUniqueAt_iff instances, ?_⟩
  · intro h
    rw [h]
    rfl
  · intro a ha b hb hab htake
    have hne : instances ≠ [] := by
      intro h
      rw [h] at ha
      exact absurd ha (List.not_mem_nil a)
    have h8 : allUniqueAt instances 8 = false := by
      rw [← Bool.not_eq_true]
      intro h
      exact hab (List.inj_on_of_nodup_map ((allUniqueAt_iff instances 8).mp h) ha hb htake)
    rw [calculate_safe_id_length_eq_find instances hne]
    have hrw : idLengthSeq.find? (allUniqueAt instances) =
        List.find? (allUniqueAt instances) [12, 16, 20, 24, 28, 32, 36] := by
      simp [idLengthSeq, List.find?, h8]
    rw [hrw]
    cases hf : List.find? (allUniqueAt instances) [12, 16, 20, 24, 28, 32, 36] with
    | none => simp
    | some n =>
      have hn := List.mem_of_find?_eq_some hf
      simp only [Option.getD_some]
      simp at hn
      rcases hn with rfl | rfl | rfl | rfl | rfl | rfl | rfl <;> norm_num

/-- Closed instantiation of the C9 theorem: the empty list yields 8, and
two instances sharing an 8-character prefix but differing at the ninth
character yield a safe length of at least 12 (indeed exactly 12). -/
theorem calculate_safe_id_length_spec_witness :
    calculate_safe_id_length [] = 8 ∧
    12 ≤ calculate_safe_id_length
      [⟨str "aaaaaaaab", [], 0, 0, 0, [], [], [], 0, ⟨none, none, none⟩⟩,
       ⟨str "aaaaaaaac", [], 0, 0, 0, [], [], [], 0, ⟨none, none, none⟩⟩] ∧
    calculate_safe_id_length
      [⟨str "aaaaaaaab", [], 0, 0, 0, [], [], [], 0, ⟨none, none, none⟩⟩,
       ⟨str "aaaaaaaac", [], 0, 0, 0, [], [], [], 0, ⟨none, none, none⟩⟩] = 12 :=
  ⟨(calculate_safe_id_length_spec []).1 rfl,
   (calculate_safe_id_length_spec
      [⟨str "aaaaaaaab", [], 0, 0, 0, [], [], [], 0, ⟨none, none, none⟩⟩,
       ⟨str "aaaaaaaac", [], 0, 0, 0, [], [], [], 0, ⟨none, none, none⟩⟩]).2.2.2
      ⟨str "aaaaaaaab", [], 0, 0, 0, [], [], [], 0, ⟨none, none, none⟩⟩ (by decide)
      ⟨str "aaaaaaaac", [], 0, 0, 0, [], [], [], 0, ⟨none, none, none⟩⟩ (by decide)
      (by decide) (by decide),
   by decide⟩

/-- C8 counterexample: an input of the full identifier length (36
characters) consisting of whitespace is trimmed before the length check,
so it is not returned unchanged and the instance list is consulted: with
an empty list the call returns NotFound for the trimmed (empty) prefix
instead of passing the input through. -/
theorem resolve_full_length_input_not_passthrough :
    (List.replicate 36 ' ').length = 36 ∧
    resolve_instance_id (.ok []) (List.replicate 36 ' ') =
      .error (.NotFound []) ∧
    resolve_instance_id (.ok []) (List.replicate 36 ' ') ≠
      .ok (List.replicate 36 ' ') := by
  refine ⟨by decide, rfl, ?_⟩
  intro h
  rw [show resolve_instance_id (.ok []) (List.replicate 36 ' ') =
      .error (.NotFound []) from rfl] at h
  exact Except.noConfusion h

/-- C8 (amended): resolution operates on the trimmed input.  A trimmed
input of full identifier length (36) is returned as-is for every fetch
outcome, error included — so no list call can influence it; for a
trimmed input of any other length, the fetched instances are filtered by
prefix match on `id`, and zero matches yield NotFound, exactly one match
yields that instance's full id, and two or more matches yield Ambiguous
carrying the full matching list. -/
theorem resolve_instance_id_amended (fetch : Except Str (List InstanceDetails))
    (input : Str) :
    ((strTrim input).length = UUID_LENGTH →
      resolve_instance_id fetch input = .ok (strTrim input)) ∧
    ((strTrim input).length ≠ UUID_LENGTH →
      (∀ e, fetch = .error e →
        resolve_instance_id fetch input = .error (.ApiError e)) ∧
      (∀ instances, fetch = .ok instances →
        (instances.filter (fun d => (strTrim input).isPrefixOf d.id) = [] →
          resolve_instance_id fetch input = .error (.NotFound (strTrim input))) ∧
        (∀ i, instances.filter (fun d => (strTrim input).isPrefixOf d.id) = [i] →
          resolve_instance_id fetch input = .ok i.id) ∧
        (∀ i j rest,
          instances.filter (fun d => (strTrim input).isPrefixOf d.id) = i :: j :: rest →
          resolve_instance_id fetch input =
            .error (.Ambiguous (strTrim input)
              (instances.filter (fun d => (strTrim input).isPrefixOf d.id)))))) := by
  constructor
  · intro hlen
    simp [resolve_instance_id, hlen]
  · intro hlen
    refine ⟨?_, ?_⟩
    · intro e he
      simp [resolve_instance_id, hlen, he]
    · intro instances hinst
      refine ⟨?_, ?_, ?_⟩
      · intro hfil
        simp [resolve_instance_id, hlen, hinst, hfil]
      · intro i hfil
        simp [resolve_instance_id, hlen, hinst, hfil]
      · intro i j rest hfil
        simp [resolve_instance_id, hlen, hinst, hfil]

/-- Closed instantiation of the amended C8 theorem: a 36-character
identifier passes through even while the API is down; a two-way shared
prefix is Ambiguous with both candidates; a unique prefix resolves to
the full id; an unknown prefix is NotFound. -/
theorem resolve_instance_id_amended_witness :
    resolve_instance_id (.error (str "api down")) (List.replicate 36 'a') =
      .ok (List.replicate 36 'a') ∧
    resolve_instance_id
        (.ok [⟨str "abX", [], 0, 0, 0, [], [], [], 0, ⟨none, none, none⟩⟩,
              ⟨str "abY", [], 0, 0, 0, [], [], [], 0, ⟨none, none, none⟩⟩,
              ⟨str "ccZ", [], 0, 0, 0, [], [], [], 0, ⟨none, none, none⟩⟩])
        (str "ab") =
      .error (.Ambiguous (str "ab")
        [⟨str "abX", [], 0, 0, 0, [], [], [], 0, ⟨none, none, none⟩⟩,
         ⟨str "abY", [], 0, 0, 0, [], [], [], 0, ⟨none, none, none⟩⟩]) ∧
    resolve_instance_id
        (.ok [⟨str "abX", [], 0, 0, 0, [], [], [], 0, ⟨none, none, none⟩⟩,
              ⟨str "abY", [], 0, 0, 0, [], [], [], 0, ⟨none, none, none⟩⟩,
              ⟨str "ccZ", [], 0, 0, 0, [], [], [], 0, ⟨none, none, none⟩⟩])
        (str "cc") =
      .ok (str "ccZ") ∧
    resolve_instance_id
        (.ok [⟨str "abX", [], 0, 0, 0, [], [], [], 0, ⟨none, none, none⟩⟩,
              ⟨str "abY", [], 0, 0, 0, [], [], [], 0, ⟨none, none, none⟩⟩,
              ⟨str "ccZ", [], 0, 0, 0, [], [], [], 0, ⟨none, none, none⟩⟩])
        (str "zz") =
      .error (.NotFound (str "zz")) :=
  ⟨(resolve_instance_id_amended (.error (str "api down")) (List.replicate 36 'a')).1
      (by decide),
   (resolve_instance_id_amended
      (.ok [⟨str "abX", [], 0, 0, 0, [], [], [], 0, ⟨none, none, none⟩⟩,
            ⟨str "abY", [], 0, 0, 0, [], [], [], 0, ⟨none, none, none⟩⟩,
            ⟨str "ccZ", [], 0, 0, 0, [], [], [], 0, ⟨none, none, none⟩⟩])
      (str "ab")).2 (by decide) |>.2 _ rfl |>.2.2
      ⟨str "abX", [], 0, 0, 0, [], [], [], 0, ⟨none, none, none⟩⟩
      ⟨str "abY", [], 0, 0, 0, [], [], [], 0, ⟨none, none, none⟩⟩ [] (by decide),
   (resolve_instance_id_amended
      (.ok [⟨str "abX", [], 0, 0, 0, [], [], [], 0, ⟨none, none, none⟩⟩,
            ⟨str "abY", [], 0, 0, 0, [], [], [], 0, ⟨none, none, none⟩⟩,
            ⟨str "ccZ", [], 0, 0, 0, [], [], [], 0, ⟨none, none, none⟩⟩])
      (str "cc")).2 (by decide) |>.2 _ rfl |>.2.1
      ⟨str "ccZ", [], 0, 0, 0, [], [], [], 0, ⟨none, none, none⟩⟩ (by decide),
   (resolve_instance_id_amended
      (.ok [⟨str "abX", [], 0, 0, 0, [], [], [], 0, ⟨none, none, none⟩⟩,
            ⟨str "abY", [], 0, 0, 0, [], [], [], 0, ⟨none, none, none⟩⟩,
            ⟨str "ccZ", [], 0, 0, 0, [], [], [], 0, ⟨none, none, none⟩⟩])
      (str "zz")).2 (by decide) |>.2 _ rfl |>.1 (by decide)⟩
